import Mathlib

/-!
Verification of the LatinIME typing-suggestion core (suggest.cpp and
dic_node_state_scoring.h) against its natural-language specification.

The C++ source is shallowly embedded: float arithmetic is modelled exactly over
the rationals, C int values over the integers, and the stateful driver code as
explicit state passing over plain Lean structures. Policy methods that live in
repository headers outside the given source slice (traversal, scoring and
shortcut policies) enter either as explicit parameters or as definitions whose
doc comments say they are modelled from the spec.
-/

set_option autoImplicit false

/-- DoubleLetterLevel from defines.h: classification of how strongly the trace
indicates an intentionally repeated letter. -/
inductive DoubleLetterLevel
  | NOT_A_DOUBLE_LETTER
  | A_DOUBLE_LETTER
  | A_STRONG_DOUBLE_LETTER
  deriving DecidableEq, Repr

/-- Numeric rank of a double-letter level, used to state monotonicity. -/
def DoubleLetterLevel.toNat : DoubleLetterLevel → Nat
  | .NOT_A_DOUBLE_LETTER => 0
  | .A_DOUBLE_LETTER => 1
  | .A_STRONG_DOUBLE_LETTER => 2

/-- The per-DicNode scoring state of dic_node_state_scoring.h (fields at lines
133-146 of the header). Floats are modelled over the rationals and the int16
counters over the integers. -/
structure DicNodeStateScoring where
  mDoubleLetterLevel : DoubleLetterLevel
  mEditCorrectionCount : Int
  mProximityCorrectionCount : Int
  mNormalizedCompoundDistance : Rat
  mSpatialDistance : Rat
  mLanguageDistance : Rat
  mTotalPrevWordsLanguageCost : Rat
  mRawLength : Rat
  deriving DecidableEq, Repr

/-- DicNodeStateScoring::init (dic_node_state_scoring.h:37-46). -/
def DicNodeStateScoring.init : DicNodeStateScoring :=
  { mDoubleLetterLevel := .NOT_A_DOUBLE_LETTER
    mEditCorrectionCount := 0
    mProximityCorrectionCount := 0
    mNormalizedCompoundDistance := 0
    mSpatialDistance := 0
    mLanguageDistance := 0
    mTotalPrevWordsLanguageCost := 0
    mRawLength := 0 }

/-- DicNodeStateScoring::addDistance (dic_node_state_scoring.h:148-158):
accumulate the spatial and language distances, then recompute the normalized
compound distance, dividing by max(1, totalInputIndex) exactly when
doNormalization holds. The inputSize argument is unused, as in the source. -/
def addDistance (s : DicNodeStateScoring) (spatialDistance languageDistance : Rat)
    (doNormalization : Bool) (inputSize totalInputIndex : Int) : DicNodeStateScoring :=
  let sp := s.mSpatialDistance + spatialDistance
  let la := s.mLanguageDistance + languageDistance
  let ncd :=
    if !doNormalization then sp + la
    else (sp + la) / ((max 1 totalInputIndex : Int) : Rat)
  let _ := inputSize
  { s with
      mSpatialDistance := sp
      mLanguageDistance := la
      mNormalizedCompoundDistance := ncd }

/-- DicNodeStateScoring::addCost (dic_node_state_scoring.h:59-72): add the
distances, then bump the edit and proximity counters according to the flags,
and fold a strictly positive language cost into mTotalPrevWordsLanguageCost. -/
def addCost (s : DicNodeStateScoring) (spatialCost languageCost : Rat)
    (doNormalization : Bool) (inputSize totalInputIndex : Int)
    (isEditCorrection isProximityCorrection : Bool) : DicNodeStateScoring :=
  let s1 := addDistance s spatialCost languageCost doNormalization inputSize totalInputIndex
  let s2 :=
    if isEditCorrection then
      { s1 with mEditCorrectionCount := s1.mEditCorrectionCount + 1 }
    else s1
  let s3 :=
    if isProximityCorrection then
      { s2 with mProximityCorrectionCount := s2.mProximityCorrectionCount + 1 }
    else s2
  if 0 < languageCost then
    { s3 with mTotalPrevWordsLanguageCost := s3.mTotalPrevWordsLanguageCost + languageCost }
  else s3

/-- DicNodeStateScoring::setDoubleLetterLevel (dic_node_state_scoring.h:114-127):
NOT_A_DOUBLE_LETTER is a no-op, A_DOUBLE_LETTER is written unless the current
level is A_STRONG_DOUBLE_LETTER, and A_STRONG_DOUBLE_LETTER is always written. -/
def setDoubleLetterLevel (s : DicNodeStateScoring)
    (doubleLetterLevel : DoubleLetterLevel) : DicNodeStateScoring :=
  match doubleLetterLevel with
  | .NOT_A_DOUBLE_LETTER => s
  | .A_DOUBLE_LETTER =>
      if s.mDoubleLetterLevel ≠ .A_STRONG_DOUBLE_LETTER then
        { s with mDoubleLetterLevel := doubleLetterLevel }
      else s
  | .A_STRONG_DOUBLE_LETTER => { s with mDoubleLetterLevel := doubleLetterLevel }

/-- DicNodeStateScoring::getCompoundDistance(languageWeight)
(dic_node_state_scoring.h:82-84). -/
def DicNodeStateScoring.getCompoundDistance (s : DicNodeStateScoring)
    (languageWeight : Rat) : Rat :=
  s.mSpatialDistance + s.mLanguageDistance * languageWeight

theorem setDoubleLetterLevel_toNat_le (s : DicNodeStateScoring) (l : DoubleLetterLevel) :
    s.mDoubleLetterLevel.toNat ≤ (setDoubleLetterLevel s l).mDoubleLetterLevel.toNat := by
  cases h : s.mDoubleLetterLevel <;> cases l <;>
    simp [setDoubleLetterLevel, DoubleLetterLevel.toNat, h]

theorem foldl_setDoubleLetterLevel_toNat_le (ls : List DoubleLetterLevel)
    (s : DicNodeStateScoring) :
    s.mDoubleLetterLevel.toNat ≤ (ls.foldl setDoubleLetterLevel s).mDoubleLetterLevel.toNat := by
  induction ls generalizing s with
  | nil => exact Nat.le_refl _
  | cons l ls ih =>
      exact Nat.le_trans (setDoubleLetterLevel_toNat_le s l) (ih (setDoubleLetterLevel s l))

/-- C3: after any cost addition, the normalized compound distance equals the
accumulated sum (spatialDistance + languageDistance) divided by
max(1, totalInputIndex) when normalization is requested for that addition, and
the un-divided sum otherwise. -/
theorem claim_C3_theorem (s : DicNodeStateScoring) (spatialCost languageCost : Rat)
    (doNormalization : Bool) (inputSize totalInputIndex : Int)
    (isEditCorrection isProximityCorrection : Bool) :
    (addCost s spatialCost languageCost doNormalization inputSize totalInputIndex
        isEditCorrection isProximityCorrection).mNormalizedCompoundDistance =
      (if doNormalization then
        ((addCost s spatialCost languageCost doNormalization inputSize totalInputIndex
            isEditCorrection isProximityCorrection).mSpatialDistance
          + (addCost s spatialCost languageCost doNormalization inputSize totalInputIndex
              isEditCorrection isProximityCorrection).mLanguageDistance)
          / ((max 1 totalInputIndex : Int) : Rat)
      else
        (addCost s spatialCost languageCost doNormalization inputSize totalInputIndex
            isEditCorrection isProximityCorrection).mSpatialDistance
          + (addCost s spatialCost languageCost doNormalization inputSize totalInputIndex
              isEditCorrection isProximityCorrection).mLanguageDistance) := by
  cases doNormalization <;>
    simp [addCost, addDistance] <;>
    split <;> split <;> split <;> simp

/-- C6: the double-letter level never decreases: each single setter call and any
sequence of setter calls is monotone in the level rank, setting
NOT_A_DOUBLE_LETTER leaves the level unchanged, setting A_DOUBLE_LETTER yields
A_DOUBLE_LETTER except from A_STRONG_DOUBLE_LETTER which is kept, and setting
A_STRONG_DOUBLE_LETTER always yields A_STRONG_DOUBLE_LETTER. -/
theorem claim_C6_theorem (s : DicNodeStateScoring) (l : DoubleLetterLevel)
    (ls : List DoubleLetterLevel) :
    s.mDoubleLetterLevel.toNat ≤ (setDoubleLetterLevel s l).mDoubleLetterLevel.toNat
    ∧ s.mDoubleLetterLevel.toNat
        ≤ (ls.foldl setDoubleLetterLevel s).mDoubleLetterLevel.toNat
    ∧ (setDoubleLetterLevel s .NOT_A_DOUBLE_LETTER).mDoubleLetterLevel = s.mDoubleLetterLevel
    ∧ (setDoubleLetterLevel s .A_DOUBLE_LETTER).mDoubleLetterLevel =
        (if s.mDoubleLetterLevel = .A_STRONG_DOUBLE_LETTER then .A_STRONG_DOUBLE_LETTER
         else .A_DOUBLE_LETTER)
    ∧ (setDoubleLetterLevel s .A_STRONG_DOUBLE_LETTER).mDoubleLetterLevel =
        .A_STRONG_DOUBLE_LETTER := by
  refine ⟨setDoubleLetterLevel_toNat_le s l, foldl_setDoubleLetterLevel_toNat_le ls s, rfl, ?_, rfl⟩
  cases h : s.mDoubleLetterLevel <;> simp [setDoubleLetterLevel, h]

/-- C7: a cost addition with non-negative spatial and language cost arguments
leaves both accumulated distances at least as large as before. -/
theorem claim_C7_theorem (s : DicNodeStateScoring) (spatialCost languageCost : Rat)
    (hsp : 0 ≤ spatialCost) (hla : 0 ≤ languageCost)
    (doNormalization : Bool) (inputSize totalInputIndex : Int)
    (isEditCorrection isProximityCorrection : Bool) :
    s.mSpatialDistance
        ≤ (addCost s spatialCost languageCost doNormalization inputSize totalInputIndex
            isEditCorrection isProximityCorrection).mSpatialDistance
    ∧ s.mLanguageDistance
        ≤ (addCost s spatialCost languageCost doNormalization inputSize totalInputIndex
            isEditCorrection isProximityCorrection).mLanguageDistance := by
  unfold addCost addDistance
  constructor <;> (split_ifs <;> simp [hsp, hla])

theorem claim_C7_witness :
    (0 : Rat) ≤ 1 ∧ (0 : Rat) ≤ 2
    ∧ (DicNodeStateScoring.init.mSpatialDistance
        ≤ (addCost DicNodeStateScoring.init 1 2 true 3 2 true false).mSpatialDistance
      ∧ DicNodeStateScoring.init.mLanguageDistance
        ≤ (addCost DicNodeStateScoring.init 1 2 true 3 2 true false).mLanguageDistance) :=
  ⟨by norm_num, by norm_num,
    claim_C7_theorem DicNodeStateScoring.init 1 2 (by norm_num) (by norm_num) true 3 2 true false⟩

/-- C10: addCost bumps the edit counter by exactly one iff the edit flag is set,
bumps the proximity counter by exactly one iff the proximity flag is set, and
adds the language cost to mTotalPrevWordsLanguageCost iff that cost is strictly
positive. -/
theorem claim_C10_theorem (s : DicNodeStateScoring) (spatialCost languageCost : Rat)
    (doNormalization : Bool) (inputSize totalInputIndex : Int)
    (isEditCorrection isProximityCorrection : Bool) :
    (addCost s spatialCost languageCost doNormalization inputSize totalInputIndex
        isEditCorrection isProximityCorrection).mEditCorrectionCount =
      s.mEditCorrectionCount + (if isEditCorrection then 1 else 0)
    ∧ (addCost s spatialCost languageCost doNormalization inputSize totalInputIndex
        isEditCorrection isProximityCorrection).mProximityCorrectionCount =
      s.mProximityCorrectionCount + (if isProximityCorrection then 1 else 0)
    ∧ (addCost s spatialCost languageCost doNormalization inputSize totalInputIndex
        isEditCorrection isProximityCorrection).mTotalPrevWordsLanguageCost =
      s.mTotalPrevWordsLanguageCost + (if 0 < languageCost then languageCost else 0) := by
  unfold addCost addDistance
  refine ⟨?_, ?_, ?_⟩ <;> (split_ifs <;> simp_all)

/-- Suggest::MIN_LEN_FOR_MULTI_WORD_AUTOCORRECT (suggest.cpp:34). -/
def MIN_LEN_FOR_MULTI_WORD_AUTOCORRECT : Int := 16

/-- Suggest::MIN_CONTINUOUS_SUGGESTION_INPUT_SIZE (suggest.cpp:35). -/
def MIN_CONTINUOUS_SUGGESTION_INPUT_SIZE : Int := 2

/-- Modelled from the spec: MAX_RESULTS (defines.h, not under the given source
slice); §6 of the spec gives the typical value 18. -/
def MAX_RESULTS : Nat := 18

/-- Modelled from the spec: the saturation bound MAX_VALUE_FOR_WEIGHTING
(defines.h, not under the given source slice). The spec only names the constant;
its exact value is immaterial to the theorems below. -/
def MAX_VALUE_FOR_WEIGHTING : Rat := 10000000

/-- Modelled from the spec: S_INT_MIN (defines.h, not under the given source
slice), the minimum 32-bit signed integer used to seed maxScore. -/
def S_INT_MIN : Int := -(2 ^ 31)

/-- The data of a popped active DicNode that the control flow of
Suggest::expandCurrentDicNodes observes before dispatching the expansion body:
the value of DicNode::isTotalInputSizeExceedingLimit (a DicNode method outside
the given source slice, hence an opaque boolean attribute here) and an identity
tag used to track which nodes reach the body. -/
structure ActiveDicNode where
  isTotalInputSizeExceedingLimit : Bool
  nodeId : Nat
  deriving DecidableEq, Repr

/-- Control-flow skeleton of the pop loop of Suggest::expandCurrentDicNodes
(suggest.cpp:233-332): given the active frontier in pop order, it returns the
nodes on which the expansion body (suggest.cpp:239-331) actually runs. When the
popped node satisfies isTotalInputSizeExceedingLimit the source returns from the
whole function (suggest.cpp:236-238). -/
def expandCurrentDicNodes : List ActiveDicNode → List ActiveDicNode
  | [] => []
  | n :: rest =>
      if n.isTotalInputSizeExceedingLimit then []
      else n :: expandCurrentDicNodes rest

/-- The externally visible actions Suggest::initializeSearch can perform on the
traverse session and its cache, in program order. -/
inductive InitAction
  | continueSearch
  | setCommitPoint (k : Int)
  | setPrevWordPos
  | setPartlyCommited
  | resetCache
  | pushRootActive
  deriving DecidableEq, Repr

/-- Suggest::initializeSearch (suggest.cpp:87-117) as the sequence of session
and cache actions it performs. proximityUsed is the value of
getProximityInfoState(0)->isUsed(), allowPartCommit the value of the policy
TRAVERSAL->allowPartialCommit() (typing policy header, outside the given source
slice, hence a parameter), continuousPossible the value of
isContinuousSuggestionPossible(). Note suggest.cpp:91-93 forces the commit
point to zero whenever the policy allows partial commit. -/
def initSearch (proximityUsed allowPartCommit : Bool) (inputSize : Int)
    (continuousPossible : Bool) (commitPoint : Int) : List InitAction :=
  if !proximityUsed then []
  else
    let commitPoint := if allowPartCommit then 0 else commitPoint
    if inputSize > MIN_CONTINUOUS_SUGGESTION_INPUT_SIZE && continuousPossible then
      if commitPoint = 0 then [.continueSearch]
      else [.setCommitPoint commitPoint, .setPrevWordPos, .continueSearch, .setPartlyCommited]
    else [.resetCache, .pushRootActive]

/-- The attributes of an expanded DicNode that Suggest::processTerminalDicNode
and Suggest::processExpandedDicNode inspect. compoundDistance is the value of
getCompoundDistance() (language weight one); the boolean fields are the values
of the corresponding DicNode methods (dic_node.h, outside the given source
slice), isCompletion being taken at the session input size. -/
structure ExpNode where
  compoundDistance : Rat
  isTerminalWordNode : Bool
  inputIndex0 : Int
  shouldBeFilterdBySafetyNetForBigram : Bool
  hasMultipleWords : Bool
  isCompletion : Bool
  hasChildren : Bool
  deriving DecidableEq, Repr

/-- Suggest::processTerminalDicNode (suggest.cpp:335-357) reduced to its
observable effect: whether the node is pushed into the terminal heap.
needsToTraverseAllUserInput is the traversal policy value. -/
def processTerminalDicNode (needsToTraverseAllUserInput : Bool) (inputSize : Int)
    (n : ExpNode) : Bool :=
  if MAX_VALUE_FOR_WEIGHTING ≤ n.compoundDistance then false
  else if !n.isTerminalWordNode then false
  else if needsToTraverseAllUserInput && n.inputIndex0 < inputSize then false
  else if n.shouldBeFilterdBySafetyNetForBigram then false
  else true

/-- The observable effects of Suggest::processExpandedDicNode on the heaps. -/
structure ExpandEffect where
  pushedTerminal : Bool
  createdNextWordDicNode : Bool
  pushedNextActive : Bool
  deriving DecidableEq, Repr

/-- Suggest::processExpandedDicNode (suggest.cpp:363-377): push the node as a
terminal candidate, and only when its compound distance is below
MAX_VALUE_FOR_WEIGHTING, possibly create a space-omission next-word node
(suggest.cpp:367-369 with the isGoodToTraverseNextWord guard of
createNextWordDicNode, suggest.cpp:501-503) and push the node itself into the
next-active heap when it has children and look-ahead is allowed
(suggest.cpp:370-374). isSpaceOmissionTerminal and isGoodToTraverseNextWord are
the traversal policy values for this node. -/
def processExpandedDicNode (needsToTraverseAllUserInput : Bool) (inputSize : Int)
    (isSpaceOmissionTerminal isGoodToTraverseNextWord : Bool) (n : ExpNode) : ExpandEffect :=
  let pushedTerminal := processTerminalDicNode needsToTraverseAllUserInput inputSize n
  if n.compoundDistance < MAX_VALUE_FOR_WEIGHTING then
    let createdNextWord := isSpaceOmissionTerminal && isGoodToTraverseNextWord
    let allowsLookAhead := !(n.hasMultipleWords && n.isCompletion)
    { pushedTerminal := pushedTerminal
      createdNextWordDicNode := createdNextWord
      pushedNextActive := n.hasChildren && allowsLookAhead }
  else
    { pushedTerminal := pushedTerminal
      createdNextWordDicNode := false
      pushedNextActive := false }

/-- The data of a drained terminal DicNode that the emission loop of
Suggest::outputSuggestions inspects: its scoring state, the word probability and
attribute flags (terminal_attributes.h, outside the given source slice, hence
opaque attributes here), the emitted code points, the attached shortcut targets
and the sameAsTyped traversal-policy value. -/
structure TerminalData where
  scoring : DicNodeStateScoring
  probability : Int
  isBlacklistedOrNotAWord : Bool
  hasMultipleWords : Bool
  outputWord : List Int
  shortcuts : List (List Int)
  sameAsTyped : Bool
  deriving DecidableEq, Repr

/-- One slot of the suggestion output arrays: either a word suggestion
(KIND_CORRECTION) or a shortcut entry emitted by the shortcut output step. -/
inductive OutEntry
  | word (codePoints : List Int) (score : Int)
  | shortcut (codePoints : List Int) (score : Int) (sameAsTyped : Bool)
  deriving DecidableEq, Repr

/-- The validity test of suggest.cpp:168-169: a terminal is output as a word
suggestion only when its probability is positive and it is neither blacklisted
nor flagged not-a-word. -/
def isValidWordOf (t : TerminalData) : Bool :=
  decide (0 < t.probability) && !t.isBlacklistedOrNotAWord

/-- isForceCommitMultiWords (suggest.cpp:173-176): the partial-commit forcing
condition. -/
def isForceCommitMultiWords (allowPartCommit partlyCommited : Bool) (inputSize : Int)
    (hasMultipleWords : Bool) : Bool :=
  allowPartCommit
    && (partlyCommited
      || (decide (inputSize ≥ MIN_LEN_FOR_MULTI_WORD_AUTOCORRECT) && hasMultipleWords))

/-- Modelled from the spec: the scoring policy toggle
Scoring::doesAutoCorrectValidWord (scoring policy header, outside the given
source slice). The spec (§4.7, Emit) defines the force flag as
allow_partial_commit ∧ (partially_committed ∨ (inputSize ≥ 16 ∧
hasMultipleWords)) with no condition beyond it, so the toggle is false. -/
def doesAutoCorrectValidWord : Bool := false

/-- The third argument passed to SCORING->calculateFinalScore at
suggest.cpp:178-180: the forcing condition, or the valid-word autocorrect
policy toggle on a valid word. -/
def forceFlagArg (allowPartCommit partlyCommited : Bool) (inputSize : Int)
    (hasMultipleWords isValidWord autoCorrectValidWord : Bool) : Bool :=
  isForceCommitMultiWords allowPartCommit partlyCommited inputSize hasMultipleWords
    || (isValidWord && autoCorrectValidWord)

/-- The force flag exactly as the spec sentence states it (spec §4.7, Emit);
kept separate from the source-side definitions for comparison. -/
def forceFlagSpec (allowPartCommit partlyCommited : Bool) (inputSize : Int)
    (hasMultipleWords : Bool) : Bool :=
  allowPartCommit
    && (partlyCommited
      || (decide (inputSize ≥ 16) && hasMultipleWords))

/-- Modelled from the spec: ShortcutUtils::outputShortcuts (shortcut_utils.h,
outside the given source slice). Per the spec (§4.7, Emit: append shortcuts at
each position, capped at MAX_RESULTS) it appends one output entry per shortcut
of the terminal attributes at the current output position, each carrying the
final score and the sameAsTyped flag, and advances the output index. -/
def outputShortcuts (shortcuts : List (List Int)) (outputWordIndex : Nat)
    (finalScore : Int) (sameAsTyped : Bool) : List OutEntry × Nat :=
  let emitted := shortcuts.take (MAX_RESULTS - outputWordIndex)
  (emitted.map (fun cp => OutEntry.shortcut cp finalScore sameAsTyped),
    outputWordIndex + emitted.length)

/-- The running state of the emission loop of Suggest::outputSuggestions: the
next output position, the entries written so far and the maximum final score. -/
structure OutState where
  outputWordIndex : Nat
  entries : List OutEntry
  maxScore : Int
  deriving DecidableEq, Repr

/-- The per-terminal body of the emission loop (suggest.cpp:152-206):
compute the double-letter-adjusted compound distance, the validity test, the
force flag and the final score; write a word entry and advance the output index
only for a valid word; then run the shortcut output step in either case.
languageWeight and doubleLetterCost are the scoring-policy values for this call
and calculateFinalScore the scoring policy map (scoring policy header, outside
the given source slice, hence parameters). -/
def terminalStep (allowPartCommit partlyCommited autoCorrectValidWord : Bool)
    (inputSize : Int) (languageWeight doubleLetterCost : Rat)
    (calculateFinalScore : Rat → Int → Bool → Int)
    (st : OutState) (t : TerminalData) : OutState :=
  let compoundDistance := t.scoring.getCompoundDistance languageWeight + doubleLetterCost
  let isValidWord := isValidWordOf t
  let force := forceFlagArg allowPartCommit partlyCommited inputSize t.hasMultipleWords
    isValidWord autoCorrectValidWord
  let finalScore := calculateFinalScore compoundDistance inputSize force
  let newMaxScore := max st.maxScore finalScore
  let afterWord :=
    if isValidWord then
      (st.outputWordIndex + 1, st.entries ++ [OutEntry.word t.outputWord finalScore])
    else (st.outputWordIndex, st.entries)
  let afterShortcuts :=
    outputShortcuts t.shortcuts afterWord.1 finalScore t.sameAsTyped
  { outputWordIndex := afterShortcuts.2
    entries := afterWord.2 ++ afterShortcuts.1
    maxScore := newMaxScore }

/-- The emission loop of Suggest::outputSuggestions (suggest.cpp:152-206) over
the drained terminals in best-first order, guarded by outputWordIndex <
MAX_RESULTS as in the for-loop condition. doubleLetterCost is indexed by the
terminal position as in the source. -/
def outputLoop (allowPartCommit partlyCommited autoCorrectValidWord : Bool)
    (inputSize : Int) (languageWeight : Rat) (doubleLetterCost : Nat → Rat)
    (calculateFinalScore : Rat → Int → Bool → Int) :
    Nat → OutState → List TerminalData → OutState
  | _, st, [] => st
  | terminalIndex, st, t :: rest =>
      if st.outputWordIndex < MAX_RESULTS then
        outputLoop allowPartCommit partlyCommited autoCorrectValidWord inputSize
          languageWeight doubleLetterCost calculateFinalScore (terminalIndex + 1)
          (terminalStep allowPartCommit partlyCommited autoCorrectValidWord inputSize
            languageWeight (doubleLetterCost terminalIndex) calculateFinalScore st t)
          rest
      else st

/-- Suggest::outputSuggestions (suggest.cpp:122-213) reduced to its returned
count: seed the output index with one when the scoring policy found a most
probable string (suggest.cpp:137-142), run the emission loop over the drained
terminals, and return the final output index. -/
def outputSuggestions (allowPartCommit partlyCommited autoCorrectValidWord : Bool)
    (inputSize : Int) (languageWeight : Rat) (doubleLetterCost : Nat → Rat)
    (calculateFinalScore : Rat → Int → Bool → Int)
    (hasMostProbableString : Bool) (terminals : List TerminalData) : Nat :=
  let st0 : OutState :=
    { outputWordIndex := if hasMostProbableString then 1 else 0
      entries := []
      maxScore := S_INT_MIN }
  (outputLoop allowPartCommit partlyCommited autoCorrectValidWord inputSize
    languageWeight doubleLetterCost calculateFinalScore 0 st0 terminals).outputWordIndex

/-- C1, counterexample: the claim says a popped active node whose total consumed
input exceeds the limit is dropped alone and the remaining active nodes are
still expanded, i.e. the expanded nodes would be the non-exceeding nodes of the
pop order; on the frontier [exceeding, ok] the source expands nothing because it
returns from the whole pass. -/
theorem claim_C1_counterexample :
    expandCurrentDicNodes
        [{ isTotalInputSizeExceedingLimit := true, nodeId := 0 },
         { isTotalInputSizeExceedingLimit := false, nodeId := 1 }]
      ≠ List.filter (fun n => !n.isTotalInputSizeExceedingLimit)
          [{ isTotalInputSizeExceedingLimit := true, nodeId := 0 },
           { isTotalInputSizeExceedingLimit := false, nodeId := 1 }] := by
  decide

/-- C1, amended: when a popped active node has consumed more input than the
limit, Suggest::expandCurrentDicNodes returns immediately, so the nodes that get
expanded in the pass are exactly the longest prefix of the pop order whose
nodes do not exceed the limit; the remaining active nodes of the frontier are
not expanded in that pass. -/
theorem claim_C1_theorem (active : List ActiveDicNode) :
    expandCurrentDicNodes active =
      active.takeWhile (fun n => !n.isTotalInputSizeExceedingLimit) := by
  induction active with
  | nil => rfl
  | cons n rest ih =>
      cases h : n.isTotalInputSizeExceedingLimit <;>
        simp [expandCurrentDicNodes, List.takeWhile_cons, h, ih]

/-- C2: with the scoring policy toggle doesAutoCorrectValidWord modelled from
the spec as false, the third argument passed to calculateFinalScore for every
terminal equals allowPartialCommit AND (partiallyCommitted OR (inputSize ≥ 16
AND the terminal has multiple words)), and nothing else makes it true. -/
theorem claim_C2_theorem (allowPartCommit partlyCommited : Bool) (inputSize : Int)
    (hasMultipleWords isValidWord : Bool) :
    forceFlagArg allowPartCommit partlyCommited inputSize hasMultipleWords isValidWord
        doesAutoCorrectValidWord
      = forceFlagSpec allowPartCommit partlyCommited inputSize hasMultipleWords := by
  simp [forceFlagArg, forceFlagSpec, isForceCommitMultiWords, doesAutoCorrectValidWord,
    MIN_LEN_FOR_MULTI_WORD_AUTOCORRECT]

/-- C4, counterexample: with the traversal policy allowing partial commit, an
input size above the continuous-suggestion threshold, a compatible prior state
and commit point 2 > 0, the source performs continue_search alone instead of the
claimed set_commit_point path, because suggest.cpp:91-93 zeroes the commit
point first. -/
theorem claim_C4_counterexample :
    (3 : Int) > MIN_CONTINUOUS_SUGGESTION_INPUT_SIZE
    ∧ (2 : Int) > 0
    ∧ initSearch true true 3 true 2 = [InitAction.continueSearch]
    ∧ initSearch true true 3 true 2
        ≠ [InitAction.setCommitPoint 2, InitAction.setPrevWordPos,
            InitAction.continueSearch, InitAction.setPartlyCommited] := by
  decide

/-- C4, amended: when the proximity state is used and continuous suggestion is
possible (input size above the threshold and prior state compatible), the branch
is decided by the effective commit point, which is the given commit point forced
to zero whenever the traversal policy allows partial commit: effective zero
gives continue_search alone, and effective nonzero gives set_commit_point(k)
followed by updating the previous-word position, continue_search and marking the
session partially committed. -/
theorem claim_C4_theorem (allowPartCommit : Bool) (inputSize : Int)
    (continuousPossible : Bool) (commitPoint : Int)
    (hcont : inputSize > MIN_CONTINUOUS_SUGGESTION_INPUT_SIZE ∧ continuousPossible = true) :
    initSearch true allowPartCommit inputSize continuousPossible commitPoint =
      (if (if allowPartCommit then 0 else commitPoint) = 0 then [InitAction.continueSearch]
       else [InitAction.setCommitPoint commitPoint, InitAction.setPrevWordPos,
             InitAction.continueSearch, InitAction.setPartlyCommited]) := by
  obtain ⟨h1, h2⟩ := hcont
  subst h2
  cases allowPartCommit <;> simp [initSearch, h1]

theorem claim_C4_witness :
    ((3 : Int) > MIN_CONTINUOUS_SUGGESTION_INPUT_SIZE ∧ true = true)
    ∧ initSearch true false 3 true 2 =
        (if (if false then 0 else (2 : Int)) = 0 then [InitAction.continueSearch]
         else [InitAction.setCommitPoint 2, InitAction.setPrevWordPos,
               InitAction.continueSearch, InitAction.setPartlyCommited]) :=
  ⟨⟨by decide, rfl⟩, claim_C4_theorem false 3 true 2 ⟨by decide, rfl⟩⟩

/-- C5: a DicNode whose compound distance has reached MAX_VALUE_FOR_WEIGHTING is
dropped by processExpandedDicNode: it is pushed neither into the terminal heap
nor into the next-active heap, and no next-word node is created from it. -/
theorem claim_C5_theorem (needsToTraverseAllUserInput : Bool) (inputSize : Int)
    (isSpaceOmissionTerminal isGoodToTraverseNextWord : Bool) (n : ExpNode)
    (h : MAX_VALUE_FOR_WEIGHTING ≤ n.compoundDistance) :
    processExpandedDicNode needsToTraverseAllUserInput inputSize isSpaceOmissionTerminal
        isGoodToTraverseNextWord n =
      { pushedTerminal := false, createdNextWordDicNode := false,
        pushedNextActive := false } := by
  unfold processExpandedDicNode processTerminalDicNode
  simp [h, not_lt.mpr h]

theorem claim_C5_witness :
    MAX_VALUE_FOR_WEIGHTING
        ≤ (ExpNode.mk MAX_VALUE_FOR_WEIGHTING true 0 false true false true).compoundDistance
    ∧ processExpandedDicNode false 0 true true
        (ExpNode.mk MAX_VALUE_FOR_WEIGHTING true 0 false true false true) =
      { pushedTerminal := false, createdNextWordDicNode := false,
        pushedNextActive := false } :=
  ⟨le_refl _, claim_C5_theorem false 0 true true _ (le_refl _)⟩

/-- C8: a terminal with word probability zero or flagged blacklisted or
not-a-word contributes no word entry of its own to the output and does not
advance the output index for a word, but the shortcut output step still runs on
it from the unchanged output position: the emission step appends exactly its
shortcut entries. -/
theorem claim_C8_theorem (allowPartCommit partlyCommited autoCorrectValidWord : Bool)
    (inputSize : Int) (languageWeight doubleLetterCost : Rat)
    (calculateFinalScore : Rat → Int → Bool → Int) (st : OutState) (t : TerminalData)
    (h : t.probability = 0 ∨ t.isBlacklistedOrNotAWord = true) :
    (terminalStep allowPartCommit partlyCommited autoCorrectValidWord inputSize
        languageWeight doubleLetterCost calculateFinalScore st t).entries =
      st.entries
        ++ (outputShortcuts t.shortcuts st.outputWordIndex
              (calculateFinalScore
                (t.scoring.getCompoundDistance languageWeight + doubleLetterCost) inputSize
                (forceFlagArg allowPartCommit partlyCommited inputSize t.hasMultipleWords
                  (isValidWordOf t) autoCorrectValidWord))
              t.sameAsTyped).1
    ∧ (terminalStep allowPartCommit partlyCommited autoCorrectValidWord inputSize
        languageWeight doubleLetterCost calculateFinalScore st t).outputWordIndex =
      (outputShortcuts t.shortcuts st.outputWordIndex
          (calculateFinalScore
            (t.scoring.getCompoundDistance languageWeight + doubleLetterCost) inputSize
            (forceFlagArg allowPartCommit partlyCommited inputSize t.hasMultipleWords
              (isValidWordOf t) autoCorrectValidWord))
          t.sameAsTyped).2 := by
  have hv : isValidWordOf t = false := by
    rcases h with h | h <;> simp [isValidWordOf, h]
  unfold terminalStep
  simp [hv]

theorem claim_C8_witness :
    ((TerminalData.mk DicNodeStateScoring.init 0 false false [] [[97]] false).probability = 0
      ∨ (TerminalData.mk DicNodeStateScoring.init 0 false false [] [[97]] false).isBlacklistedOrNotAWord = true)
    ∧ ((terminalStep true false false 5 1 0 (fun _ _ _ => 7)
          (OutState.mk 0 [] S_INT_MIN)
          (TerminalData.mk DicNodeStateScoring.init 0 false false [] [[97]] false)).entries =
        (OutState.mk 0 [] S_INT_MIN).entries
          ++ (outputShortcuts
                (TerminalData.mk DicNodeStateScoring.init 0 false false [] [[97]] false).shortcuts
                (OutState.mk 0 [] S_INT_MIN).outputWordIndex
                ((fun _ _ _ => 7)
                  ((TerminalData.mk DicNodeStateScoring.init 0 false false [] [[97]] false).scoring.getCompoundDistance 1 + 0)
                  (5 : Int)
                  (forceFlagArg true false 5
                    (TerminalData.mk DicNodeStateScoring.init 0 false false [] [[97]] false).hasMultipleWords
                    (isValidWordOf (TerminalData.mk DicNodeStateScoring.init 0 false false [] [[97]] false))
                    false))
                (TerminalData.mk DicNodeStateScoring.init 0 false false [] [[97]] false).sameAsTyped).1
      ∧ (terminalStep true false false 5 1 0 (fun _ _ _ => 7)
          (OutState.mk 0 [] S_INT_MIN)
          (TerminalData.mk DicNodeStateScoring.init 0 false false [] [[97]] false)).outputWordIndex =
        (outputShortcuts
            (TerminalData.mk DicNodeStateScoring.init 0 false false [] [[97]] false).shortcuts
            (OutState.mk 0 [] S_INT_MIN).outputWordIndex
            ((fun _ _ _ => 7)
              ((TerminalData.mk DicNodeStateScoring.init 0 false false [] [[97]] false).scoring.getCompoundDistance 1 + 0)
              (5 : Int)
              (forceFlagArg true false 5
                (TerminalData.mk DicNodeStateScoring.init 0 false false [] [[97]] false).hasMultipleWords
                (isValidWordOf (TerminalData.mk DicNodeStateScoring.init 0 false false [] [[97]] false))
                false))
            (TerminalData.mk DicNodeStateScoring.init 0 false false [] [[97]] false).sameAsTyped).2) :=
  ⟨Or.inl rfl,
    claim_C8_theorem true false false 5 1 0 (fun _ _ _ => 7)
      (OutState.mk 0 [] S_INT_MIN)
      (TerminalData.mk DicNodeStateScoring.init 0 false false [] [[97]] false)
      (Or.inl rfl)⟩

/-- C9: when the proximity state for pointer 0 is unused, initializeSearch
performs no action at all (in particular no cache reset and no root push), the
expand loop over the empty active frontier expands no node, and with an empty
terminal heap and a most-probable-string search that yields nothing on an empty
terminal set, outputSuggestions returns zero valid entries. -/
theorem claim_C9_theorem (allowPartCommit partlyCommited autoCorrectValidWord : Bool)
    (inputSize commitPoint : Int) (continuousPossible : Bool)
    (languageWeight : Rat) (doubleLetterCost : Nat → Rat)
    (calculateFinalScore : Rat → Int → Bool → Int)
    (mostProbableString : List TerminalData → Bool)
    (hmps : mostProbableString [] = false) :
    initSearch false allowPartCommit inputSize continuousPossible commitPoint = []
    ∧ expandCurrentDicNodes [] = []
    ∧ outputSuggestions allowPartCommit partlyCommited autoCorrectValidWord inputSize
        languageWeight doubleLetterCost calculateFinalScore (mostProbableString []) [] = 0 := by
  refine ⟨rfl, rfl, ?_⟩
  simp [outputSuggestions, outputLoop, hmps]

theorem claim_C9_witness :
    (fun _ : List TerminalData => false) [] = false
    ∧ (initSearch false true 5 true 0 = []
      ∧ expandCurrentDicNodes [] = []
      ∧ outputSuggestions true false false 5 1 (fun _ => 0) (fun _ _ _ => 0)
          ((fun _ : List TerminalData => false) []) [] = 0) :=
  ⟨rfl,
    claim_C9_theorem true false false 5 0 true 1 (fun _ => 0) (fun _ _ _ => 0)
      (fun _ => false) rfl⟩
